import Mathlib

/-!
Shallow embedding of `src/dragonfly-client/src/bin/dfdaemon/main.rs`: the
dfdaemon process supervisor.  The `main` function there performs a strictly
sequential construction of shared resources and services, spawns all services
inside one `tokio::select!` race (together with an external interrupt arm),
triggers the shutdown token once the race returns, releases shared resources
in a fixed order, waits on the completion channel, and returns `Ok(())`.

External constructors (`Storage::new`, `ManagerClient::new`, `Dynconfig::new`,
`SchedulerClient::new`, `BackendFactory::new`, `Task::new`,
`PersistentCacheTask::new`, `SchedulerAnnouncer::new`) live in other crates;
their success or failure is an input oracle here (one boolean per fallible
step), exactly mirroring which calls in `main.rs` are followed by `?` and in
which order they execute.  The `Option` IP fields of the configuration are
modelled as `Option Nat` because `main.rs` calls `.unwrap()` on them, which
panics when the field is `None`.
-/

/-- The ten services spawned by the `tokio::select!` block of `main.rs`
(lines 319-376), listed in the order of the select arms. -/
inductive ServiceName where
  | dynconfig
  | health
  | metrics
  | stats
  | managerAnnouncer
  | schedulerAnnouncer
  | gc
  | dfdaemonUploadGrpc
  | dfdaemonDownloadGrpc
  | proxy
deriving DecidableEq, Repr

/-- The select arms of `main.rs` in source order: dynconfig, health, metrics,
stats, manager announcer, scheduler announcer, gc, upload grpc, download grpc,
proxy. -/
def allServices : List ServiceName :=
  [.dynconfig, .health, .metrics, .stats, .managerAnnouncer,
   .schedulerAnnouncer, .gc, .dfdaemonUploadGrpc, .dfdaemonDownloadGrpc,
   .proxy]

/-- Modelled from the spec: the outcome of a service execution unit.  The
crates defining each service's `run` are not in `src/`; the spec's service
contract says each service exposes a single asynchronous `run()` whose return
is a value or an error. -/
inductive RunOutcome where
  | ok
  | err
deriving DecidableEq, Repr

/-- What makes the `tokio::select!` of `main.rs` return: one of the spawned
services' execution units returning (with some outcome), or the external
interrupt arm `shutdown::shutdown_signal()` completing. -/
inductive RaceEvent where
  | serviceReturned (s : ServiceName) (o : RunOutcome)
  | interrupt
deriving DecidableEq, Repr

/-- Input oracle for one run of `main`: which external fallible constructors
succeed, and the values of the `Option` IP fields that `main.rs` unwraps. -/
structure Input where
  configLoadOk : Bool
  storageOk : Bool
  hostIp : Option Nat
  managerClientOk : Bool
  dynconfigOk : Bool
  schedulerClientOk : Bool
  backendFactoryOk : Bool
  taskOk : Bool
  persistentCacheTaskOk : Bool
  healthIp : Option Nat
  statsIp : Option Nat
  schedulerAnnouncerOk : Bool
  uploadIp : Option Nat
deriving DecidableEq, Repr

/-- Result of the construction phase of `main.rs` (lines 111-316), before the
select block.  `configLoadFail` is the explicit `std::process::exit(1)` branch
with its two `println!` messages; `constructionFail` is an `Err` propagated by
`?` out of `main`; `panicked` is an `.unwrap()` on a `None` field. -/
inductive StartupOutcome where
  | configLoadFail
  | constructionFail (step : String)
  | panicked (what : String)
  | started
deriving DecidableEq, Repr

/-- The construction phase of `main.rs`, step by step in source order:
config load (line 114), storage (158), id generator with
`config.host.ip.unwrap()` (166-171), manager client (174), dynconfig (186),
scheduler client (199), backend factory (206), task (213), persistent cache
task (223), health with `config.health.server.ip.unwrap()` (233),
metrics (240, infallible), stats with `config.stats.server.ip.unwrap()` (247),
proxy (254, infallible), manager announcer (262, infallible), scheduler
announcer (270), upload grpc with `config.upload.server.ip.unwrap()` (283),
download grpc (293, infallible), gc (303, infallible). -/
def startup (i : Input) : StartupOutcome :=
  if !i.configLoadOk then .configLoadFail
  else if !i.storageOk then .constructionFail "storage"
  else match i.hostIp with
  | none => .panicked "config.host.ip"
  | some _ =>
    if !i.managerClientOk then .constructionFail "manager client"
    else if !i.dynconfigOk then .constructionFail "dynconfig"
    else if !i.schedulerClientOk then .constructionFail "scheduler client"
    else if !i.backendFactoryOk then .constructionFail "backend factory"
    else if !i.taskOk then .constructionFail "task manager"
    else if !i.persistentCacheTaskOk then
      .constructionFail "persistent cache task manager"
    else match i.healthIp with
    | none => .panicked "config.health.server.ip"
    | some _ => match i.statsIp with
      | none => .panicked "config.stats.server.ip"
      | some _ =>
        if !i.schedulerAnnouncerOk then .constructionFail "scheduler announcer"
        else match i.uploadIp with
        | none => .panicked "config.upload.server.ip"
        | some _ => .started

/-- Whether `main.rs` prints the colorized operator-facing config help
messages: it does so exactly in the config-load-failure branch
(lines 117-135), right before `std::process::exit(1)`. -/
def printsConfigHelp (i : Input) : Bool :=
  !i.configLoadOk

/-- True for the startup outcomes that take the documented
exit-status-1 construction-failure path. -/
def constructionFailed : StartupOutcome → Bool
  | .configLoadFail => true
  | .constructionFail _ => true
  | _ => false

/-- Observable events of the post-construction phase of `main.rs`:
spawning a service (a select arm), the select returning, the
`shutdown.trigger()` call, the four explicit releases (lines 383, 387, 391,
394), the final `shutdown_complete_rx.recv().await`, and `main` returning
`Ok(())`. -/
inductive Event where
  | spawn (s : ServiceName)
  | raceReturn (r : RaceEvent)
  | trigger
  | dropTask
  | dropPersistentCacheTask
  | dropSchedulerClient
  | dropShutdownCompleteTx
  | awaitCompletions
  | exitOk
deriving DecidableEq, Repr

/-- The run phase of `main.rs` as an event trace.  `tokio::select!` evaluates
(and thereby spawns) every arm before polling any of them, so all ten spawn
events precede the race return; after the select returns with `r`, control is
straight-line: `shutdown.trigger()`, `drop(task)`,
`drop(persistent_cache_task)`, `drop(scheduler_client)`,
`drop(shutdown_complete_tx)`, `shutdown_complete_rx.recv().await`,
`Ok(())`. -/
def runPhaseTrace (r : RaceEvent) : List Event :=
  allServices.map .spawn ++
    [.raceReturn r, .trigger, .dropTask, .dropPersistentCacheTask,
     .dropSchedulerClient, .dropShutdownCompleteTx, .awaitCompletions,
     .exitOk]

/-- Event trace of a full `main` run: empty when construction fails (the
select block at lines 319-376 is only reached after every construction step
succeeded). -/
def mainTrace (i : Input) (r : RaceEvent) : List Event :=
  match startup i with
  | .started => runPhaseTrace r
  | _ => []

/-- How the process terminates: with an exit status, or by panicking. -/
inductive ProcessResult where
  | exitCode (c : Nat)
  | panic (what : String)
deriving DecidableEq, Repr

/-- Process-level result of `main.rs`: the config-load branch calls
`std::process::exit(1)`; an `Err` propagated by `?` makes
`main : Result<(), anyhow::Error>` return `Err`, which the runtime turns into
exit status 1; an `.unwrap()` on `None` panics; otherwise `main` runs the
select, the teardown, and returns `Ok(())`, i.e. exit status 0 - independently
of which service won the race and whether it returned an error. -/
def mainResult (i : Input) (r : RaceEvent) : ProcessResult :=
  match startup i with
  | .configLoadFail => .exitCode 1
  | .constructionFail _ => .exitCode 1
  | .panicked w => .panic w
  | .started =>
    match r with
    | _ => .exitCode 0

/-- Modelled from the spec: `dragonfly_client::shutdown::Shutdown` (the crate
is not in `src/`).  The spec's ShutdownToken holds a monotonic stop flag:
`trigger()` flips it (idempotently) and `is_triggered()` observes it without
blocking. -/
structure Shutdown where
  triggered : Bool
deriving DecidableEq, Repr

/-- The fresh shutdown token created at line 182 of `main.rs`. -/
def Shutdown.initial : Shutdown := ⟨false⟩

/-- Modelled from the spec: `trigger()` sets the flag; calling it again is a
no-op since the flag is already set. -/
def Shutdown.trigger (_ : Shutdown) : Shutdown := ⟨true⟩

/-- Modelled from the spec: non-blocking observation of the stop flag. -/
def Shutdown.is_triggered (s : Shutdown) : Bool := s.triggered

/-- How each trace event acts on the shared shutdown token: only the
`shutdown.trigger()` call at line 379 changes it. -/
def stepShutdown (st : Shutdown) : Event → Shutdown
  | .trigger => st.trigger
  | _ => st

/-- The state of the shutdown token after the first `n` events of the run
phase with race outcome `r`. -/
def shutdownAfter (r : RaceEvent) (n : Nat) : Shutdown :=
  ((runPhaseTrace r).take n).foldl stepShutdown Shutdown.initial

/-- Recognizes the `shutdown.trigger()` event. -/
def isTrigger : Event → Bool
  | .trigger => true
  | _ => false

/-- Recognizes spawn events. -/
def isSpawn : Event → Bool
  | .spawn _ => true
  | _ => false

/-- Recognizes the select-return event. -/
def isRaceReturn : Event → Bool
  | .raceReturn _ => true
  | _ => false

/-- Recognizes the five teardown events of `main.rs` lines 383-397: the four
drops and the final blocking receive. -/
def isTeardown : Event → Bool
  | .dropTask => true
  | .dropPersistentCacheTask => true
  | .dropSchedulerClient => true
  | .dropShutdownCompleteTx => true
  | .awaitCompletions => true
  | _ => false

/-- The barrier quota from `Barrier::new(3)` at line 316 of `main.rs`. -/
def barrierQuota : Nat := 3

/-- Which select arms of `main.rs` pass the cloned
`grpc_server_started_barrier` into the service's `run`: only the upload grpc
server (line 351), the download grpc server (line 360) and the proxy
(line 369) receive `run(barrier)`; every other arm calls `run()` without
it. -/
def receivesBarrier : ServiceName → Bool
  | .dfdaemonUploadGrpc => true
  | .dfdaemonDownloadGrpc => true
  | .proxy => true
  | _ => false

/-- Modelled from the spec: `tokio::sync::Barrier` (an external crate).  The
readiness barrier releases its waiters exactly when the number of arrivals
reaches the quota fixed at construction. -/
def barrierReleases (arrivals : Nat) : Bool :=
  decide (barrierQuota ≤ arrivals)

/-- Modelled from the spec: the completion-tracking channel
(`tokio::sync::mpsc::unbounded_channel`, an external crate) used only for
drop-tracking in `main.rs`.  The channel state is the multiset of outstanding
completion handles (clones of `shutdown_complete_tx`), each identified by a
number. -/
abbrev ChannelState : Type := Multiset Nat

/-- Modelled from the spec: releasing (dropping) one completion handle
removes one occurrence of it from the outstanding multiset. -/
def releaseHandle (c : ChannelState) (h : Nat) : ChannelState :=
  Multiset.erase c h

/-- Modelled from the spec: the consumer-side wait
(`shutdown_complete_rx.recv().await` with no message ever sent) resolves
exactly when no completion handle is outstanding. -/
def recvResolves (c : ChannelState) : Bool :=
  decide (c = (0 : Multiset Nat))

/-- Applies a sequence of handle releases to a channel state. -/
def releaseAll (c : ChannelState) (l : List Nat) : ChannelState :=
  l.foldl releaseHandle c

/-- Number of completion handles issued in `main.rs`: one clone of
`shutdown_complete_tx` per constructed service (dynconfig, health, metrics,
stats, proxy, manager announcer, scheduler announcer, upload grpc, download
grpc, gc) plus the original kept by `main` and dropped at line 394. -/
def issuedHandles : Nat := allServices.length + 1

/-- Which select arms of `main.rs` wrap the service's `run` result in
`unwrap_or_else(|err| error!(...))` naming the service: the manager announcer
(line 336), the upload grpc server (line 351), the download grpc server
(line 360) and the proxy (line 369).  The dynconfig (320), health (324),
metrics (328), stats (332), scheduler announcer (340) and gc (344) arms
discard the run result; the select arm body only logs an `info!` "exited"
message. -/
def logsErrorWithName : ServiceName → Bool
  | .managerAnnouncer => true
  | .dfdaemonUploadGrpc => true
  | .dfdaemonDownloadGrpc => true
  | .proxy => true
  | _ => false

/-- Whether the supervisor emits an `error!` log carrying the service's name
and the error when service `s` returns with outcome `o`: only when the
outcome is an error and the arm has the `unwrap_or_else` wrapper. -/
def armLogsError (s : ServiceName) (o : RunOutcome) : Bool :=
  match o with
  | .ok => false
  | .err => logsErrorWithName s

/-- Boolean guard for the startup steps preceding the three server
constructors of claim C10: config load, storage, host ip, manager client,
dynconfig, scheduler client, backend factory, task manager and persistent
cache task manager all succeed, so control reaches line 233 of `main.rs`. -/
def reachesServers (i : Input) : Bool :=
  i.configLoadOk && i.storageOk && i.hostIp.isSome && i.managerClientOk &&
    i.dynconfigOk && i.schedulerClientOk && i.backendFactoryOk && i.taskOk &&
    i.persistentCacheTaskOk

/-- A run input on which every external constructor succeeds and every
optional IP field is present. -/
def allOkInput : Input :=
  ⟨true, true, some 0, true, true, true, true, true, true, some 0, some 0,
   true, some 0⟩

/-- A run input identical to `allOkInput` except that `config.host.ip` is
absent. -/
def hostIpNoneInput : Input :=
  ⟨true, true, none, true, true, true, true, true, true, some 0, some 0,
   true, some 0⟩

/-- A run input identical to `allOkInput` except that
`config.health.server.ip` is absent. -/
def healthIpNoneInput : Input :=
  ⟨true, true, some 0, true, true, true, true, true, true, none, some 0,
   true, some 0⟩

/-- A run input identical to `allOkInput` except that the storage
constructor fails. -/
def storageFailInput : Input :=
  ⟨true, false, some 0, true, true, true, true, true, true, some 0, some 0,
   true, some 0⟩

/-! Helper lemmas. -/

/-- The shutdown flag is monotone: once set, no event of the trace clears
it. -/
theorem triggered_mono (l : List Event) (st : Shutdown)
    (h : st.is_triggered = true) :
    (l.foldl stepShutdown st).is_triggered = true := by
  induction l generalizing st with
  | nil => exact h
  | cons e t ih =>
    apply ih
    cases e <;> simp [stepShutdown, Shutdown.trigger, Shutdown.is_triggered] <;>
      simpa [Shutdown.is_triggered] using h

/-- After the first twelve events of the run phase (the ten spawns, the race
return and the trigger), the shutdown token is set. -/
theorem shutdownAfter_twelve (r : RaceEvent) : shutdownAfter r 12 = ⟨true⟩ := rfl

/-- Releasing handles one by one is multiset subtraction of the released
handles from the outstanding ones. -/
theorem releaseAll_eq_sub (l : List Nat) (c : ChannelState) :
    releaseAll c l = c - (l : Multiset Nat) := by
  induction l generalizing c with
  | nil => simp [releaseAll]
  | cons a t ih =>
    show releaseAll (releaseHandle c a) t = _
    rw [ih, releaseHandle, ← Multiset.cons_coe, Multiset.sub_cons]

/-- A successfully loaded configuration never produces the
config-load-failure outcome. -/
theorem startup_ne_configLoadFail (i : Input) (h : i.configLoadOk = true) :
    startup i ≠ StartupOutcome.configLoadFail := by
  unfold startup
  simp only [h, Bool.not_true, Bool.false_eq_true, if_false]
  (repeat' split) <;> simp

/-! Claim theorems. -/

/-- C1: for all services spawned, once any service's execution unit returns
(successfully or with error) or the external interrupt arrives, the
supervisor triggers shutdown exactly once (a single `shutdown.trigger()`
event in the run-phase trace), and from that point until process exit the
shared shutdown token observes `is_triggered() == true`. -/
theorem C1_shutdown_triggered_once_and_observed (r : RaceEvent) :
    ((runPhaseTrace r).filter isTrigger).length = 1 ∧
    ∀ n, (runPhaseTrace r).findIdx isTrigger < n →
      (shutdownAfter r n).is_triggered = true := by
  refine ⟨rfl, ?_⟩
  intro n hn
  have h11 : (runPhaseTrace r).findIdx isTrigger = 11 := rfl
  rw [h11] at hn
  obtain ⟨k, hk⟩ := Nat.exists_eq_add_of_le (by omega : 12 ≤ n)
  subst hk
  unfold shutdownAfter
  rw [List.take_add, List.foldl_append]
  have h12 : List.foldl stepShutdown Shutdown.initial
      ((runPhaseTrace r).take 12) = ⟨true⟩ := rfl
  rw [h12]
  exact triggered_mono _ _ rfl

/-- Witness for C1 at the interrupt outcome and the first post-trigger
point. -/
theorem C1_shutdown_witness :
    ((runPhaseTrace RaceEvent.interrupt).filter isTrigger).length = 1 ∧
    (shutdownAfter RaceEvent.interrupt 12).is_triggered = true :=
  ⟨(C1_shutdown_triggered_once_and_observed RaceEvent.interrupt).1,
   (C1_shutdown_triggered_once_and_observed RaceEvent.interrupt).2 12
     (by decide)⟩

/-- C2: after the race returns (for any cause), the teardown events of the
run phase are exactly, in order: drop of the task manager, drop of the
persistent-cache task manager, drop of the scheduler client, drop of the
completion-tracker producer handle, and only then the blocking wait on the
completion channel; no teardown event occurs up to and including the trigger
event. -/
theorem C2_teardown_order (r : RaceEvent) :
    (runPhaseTrace r).filter isTeardown =
      [.dropTask, .dropPersistentCacheTask, .dropSchedulerClient,
       .dropShutdownCompleteTx, .awaitCompletions] ∧
    ((runPhaseTrace r).take ((runPhaseTrace r).findIdx isTrigger + 1)).filter
      isTeardown = [] :=
  ⟨rfl, rfl⟩

/-- C3: the final receive on the completion channel resolves exactly when
every issued completion handle has been released, and releasing the handles
in any other order (any permutation) leaves the channel in the same state, so
resolution is order-independent. -/
theorem C3_recv_resolves_iff_all_handles_released
    (handles released : List Nat) :
    (recvResolves (releaseAll (↑handles) released) = true ↔
      (handles : Multiset Nat) ≤ (released : Multiset Nat)) ∧
    ∀ other : List Nat, released.Perm other →
      releaseAll (↑handles) released = releaseAll (↑handles) other := by
  constructor
  · rw [releaseAll_eq_sub]
    unfold recvResolves
    rw [decide_eq_true_eq]
    exact tsub_eq_zero_iff_le
  · intro other hp
    rw [releaseAll_eq_sub, releaseAll_eq_sub, Multiset.coe_eq_coe.mpr hp]

/-- Witness for C3: three handles released in a permuted order yield the same
channel state as the identity order, and the receive resolves. -/
theorem C3_channel_witness :
    releaseAll (↑[1, 2, 3]) [3, 1, 2] = releaseAll (↑[1, 2, 3]) [1, 2, 3] ∧
    recvResolves (releaseAll (↑[1, 2, 3]) [3, 1, 2]) = true :=
  ⟨(C3_recv_resolves_iff_all_handles_released [1, 2, 3] [3, 1, 2]).2
     [1, 2, 3] (by decide),
   (C3_recv_resolves_iff_all_handles_released [1, 2, 3] [3, 1, 2]).1.mpr
     (by decide)⟩

/-- C4: whenever a fallible construction step actually fails (config load,
storage, manager client, dynconfig, scheduler client, backend factory, task
managers, scheduler announcer), the process exits with status 1, no service
is ever spawned, and a config-load failure additionally prints the
operator-actionable help messages. -/
theorem C4_construction_failure_exits_one_no_spawn (i : Input) (r : RaceEvent)
    (h : constructionFailed (startup i) = true) :
    mainResult i r = .exitCode 1 ∧
    (mainTrace i r).filter isSpawn = [] ∧
    (startup i = .configLoadFail → printsConfigHelp i = true) := by
  cases ho : startup i with
  | configLoadFail =>
    refine ⟨by unfold mainResult; rw [ho],
      by unfold mainTrace; rw [ho]; rfl, ?_⟩
    intro _
    cases hc : i.configLoadOk with
    | false => simp [printsConfigHelp, hc]
    | true => exact absurd ho (startup_ne_configLoadFail i hc)
  | constructionFail step =>
    refine ⟨by unfold mainResult; rw [ho],
      by unfold mainTrace; rw [ho]; rfl, ?_⟩
    intro hx
    exact absurd hx (by simp)
  | panicked w => rw [ho] at h; exact absurd h (by simp [constructionFailed])
  | started => rw [ho] at h; exact absurd h (by simp [constructionFailed])

/-- Witness for C4 at an input whose storage constructor fails. -/
theorem C4_failure_witness :
    mainResult storageFailInput RaceEvent.interrupt = .exitCode 1 ∧
    (mainTrace storageFailInput RaceEvent.interrupt).filter isSpawn = [] ∧
    (startup storageFailInput = .configLoadFail →
      printsConfigHelp storageFailInput = true) :=
  C4_construction_failure_exits_one_no_spawn storageFailInput
    RaceEvent.interrupt (by decide)

/-- C5: the readiness barrier is constructed with quota exactly 3; its handle
goes to exactly the upload grpc server, the download grpc server and the
proxy (no other service receives it); the number of registered waiters equals
the quota; and the barrier releases no waiter until 3 arrivals have been
made. -/
theorem C5_barrier_quota_and_recipients (s : ServiceName) :
    barrierQuota = 3 ∧
    (receivesBarrier s = true ↔
      s ∈ [ServiceName.dfdaemonUploadGrpc, ServiceName.dfdaemonDownloadGrpc,
           ServiceName.proxy]) ∧
    (allServices.filter receivesBarrier).length = barrierQuota ∧
    (∀ k, k < barrierQuota → barrierReleases k = false) ∧
    barrierReleases barrierQuota = true := by
  refine ⟨rfl, by cases s <;> decide, rfl, ?_, rfl⟩
  intro k hk
  simp only [barrierQuota] at hk
  simp only [barrierReleases, barrierQuota, decide_eq_false_iff_not]
  omega

/-- Witness for C5: two arrivals do not release the barrier. -/
theorem C5_barrier_witness : barrierReleases 2 = false :=
  (C5_barrier_quota_and_recipients ServiceName.proxy).2.2.2.1 2 (by decide)

/-- C6: whenever construction succeeded and the race over the spawned
services returns - for any winner and any outcome, error included - the
process exits with status 0, and the result does not depend on which service
exited or why. -/
theorem C6_teardown_always_exits_zero (i : Input) (r : RaceEvent)
    (h : startup i = .started) :
    mainResult i r = .exitCode 0 ∧
    ∀ r₂ : RaceEvent, mainResult i r = mainResult i r₂ := by
  constructor
  · unfold mainResult
    rw [h]
  · intro r₂
    unfold mainResult
    rw [h]

/-- Witness for C6 at an all-successful input where the proxy exits with an
error. -/
theorem C6_exit_witness :
    mainResult allOkInput
      (RaceEvent.serviceReturned ServiceName.proxy RunOutcome.err) =
      .exitCode 0 :=
  (C6_teardown_always_exits_zero allOkInput
    (RaceEvent.serviceReturned ServiceName.proxy RunOutcome.err) rfl).1

/-- C7 counterexample: dynconfig is one of the spawned services, yet when its
execution unit returns an error the supervisor emits no error log carrying
the service's name and the error - its select arm discards the run result
(line 320 of `main.rs`). -/
theorem C7_error_logging_counterexample :
    ServiceName.dynconfig ∈ allServices ∧
    armLogsError ServiceName.dynconfig RunOutcome.err = false := by
  decide

/-- C7 amended: the supervisor logs an error with the service's name exactly
for the manager announcer, the upload grpc server, the download grpc server
and the proxy when they return an error; for every other service the run
result is discarded; and every exit, error or not, still reaches the
shutdown trigger. -/
theorem C7_error_logging_amended (s : ServiceName) (o : RunOutcome) :
    (armLogsError s o = true ↔
      (o = RunOutcome.err ∧
        s ∈ [ServiceName.managerAnnouncer, ServiceName.dfdaemonUploadGrpc,
             ServiceName.dfdaemonDownloadGrpc, ServiceName.proxy])) ∧
    Event.trigger ∈ runPhaseTrace (RaceEvent.serviceReturned s o) := by
  cases s <;> cases o <;> exact ⟨by decide, by decide⟩

/-- C8 counterexample: a configuration that passes config load and storage
init but carries no `host.ip` makes the id-generator construction step panic
(the `.unwrap()` at line 167 of `main.rs`), aborting the process. -/
theorem C8_idgen_counterexample :
    startup hostIpNoneInput = StartupOutcome.panicked "config.host.ip" ∧
    mainResult hostIpNoneInput RaceEvent.interrupt =
      ProcessResult.panic "config.host.ip" :=
  ⟨rfl, rfl⟩

/-- C8 amended: for every configuration that reaches construction step 4
(config load and storage init succeeded) and whose `host.ip` is present, the
id-generator construction completes without error and without aborting the
process. -/
theorem C8_idgen_amended (i : Input) (ip : Nat)
    (hc : i.configLoadOk = true) (hs : i.storageOk = true)
    (hip : i.hostIp = some ip) :
    startup i ≠ StartupOutcome.panicked "config.host.ip" := by
  unfold startup
  simp only [hc, hs, hip, Bool.not_true, Bool.false_eq_true, if_false]
  (repeat' split) <;> simp

/-- Witness for C8 amended at the all-successful input. -/
theorem C8_idgen_witness :
    startup allOkInput ≠ StartupOutcome.panicked "config.host.ip" :=
  C8_idgen_amended allOkInput 0 rfl rfl rfl

/-- C9: spawning is a single batch relative to the race: in every run-phase
trace, every service's spawn event lies before the race-return event, which
itself lies before the shutdown trigger - so no service exit can win the race
and trigger shutdown before every service has been spawned. -/
theorem C9_all_spawns_precede_race_and_trigger (r : RaceEvent)
    (s : ServiceName) :
    Event.spawn s ∈
      (runPhaseTrace r).take ((runPhaseTrace r).findIdx isRaceReturn) ∧
    (runPhaseTrace r).findIdx isRaceReturn <
      (runPhaseTrace r).findIdx isTrigger := by
  constructor
  · have h : (runPhaseTrace r).take ((runPhaseTrace r).findIdx isRaceReturn) =
        allServices.map .spawn := rfl
    rw [h]
    cases s <;> decide
  · show (10 : Nat) < 11
    omega

/-- C10: for every configuration that reaches the server constructors, an
absent `config.health.server.ip`, `config.stats.server.ip` or
`config.upload.server.ip` makes the corresponding construction panic - the
process aborts instead of taking the documented exit-status-1
construction-failure path. -/
theorem C10_missing_server_ip_panics (i : Input) (r : RaceEvent)
    (h : reachesServers i = true) :
    (i.healthIp = none →
      startup i = StartupOutcome.panicked "config.health.server.ip" ∧
      mainResult i r = ProcessResult.panic "config.health.server.ip" ∧
      constructionFailed (startup i) = false) ∧
    (∀ a, i.healthIp = some a → i.statsIp = none →
      startup i = StartupOutcome.panicked "config.stats.server.ip" ∧
      mainResult i r = ProcessResult.panic "config.stats.server.ip" ∧
      constructionFailed (startup i) = false) ∧
    (∀ a b, i.healthIp = some a → i.statsIp = some b →
      i.schedulerAnnouncerOk = true → i.uploadIp = none →
      startup i = StartupOutcome.panicked "config.upload.server.ip" ∧
      mainResult i r = ProcessResult.panic "config.upload.server.ip" ∧
      constructionFailed (startup i) = false) := by
  simp only [reachesServers, Bool.and_eq_true, Option.isSome_iff_exists] at h
  obtain ⟨⟨⟨⟨⟨⟨⟨⟨hc, hs⟩, hip0, hhip⟩, hm⟩, hd⟩, hsc⟩, hb⟩, ht⟩, hp⟩ := h
  refine ⟨?_, ?_, ?_⟩
  · intro hnone
    have hst : startup i = .panicked "config.health.server.ip" := by
      unfold startup
      simp [hc, hs, hhip, hm, hd, hsc, hb, ht, hp, hnone]
    exact ⟨hst, by unfold mainResult; rw [hst], by rw [hst]; rfl⟩
  · intro a ha hnone
    have hst : startup i = .panicked "config.stats.server.ip" := by
      unfold startup
      simp [hc, hs, hhip, hm, hd, hsc, hb, ht, hp, ha, hnone]
    exact ⟨hst, by unfold mainResult; rw [hst], by rw [hst]; rfl⟩
  · intro a b ha hb2 hann hnone
    have hst : startup i = .panicked "config.upload.server.ip" := by
      unfold startup
      simp [hc, hs, hhip, hm, hd, hsc, hb, ht, hp, ha, hb2, hann, hnone]
    exact ⟨hst, by unfold mainResult; rw [hst], by rw [hst]; rfl⟩

/-- Witness for C10 at an input whose `config.health.server.ip` is absent. -/
theorem C10_panic_witness :
    startup healthIpNoneInput =
      StartupOutcome.panicked "config.health.server.ip" ∧
    mainResult healthIpNoneInput RaceEvent.interrupt =
      ProcessResult.panic "config.health.server.ip" ∧
    constructionFailed (startup healthIpNoneInput) = false :=
  (C10_missing_server_ip_panics healthIpNoneInput RaceEvent.interrupt
    (by decide)).1 rfl
